import Mathlib

/-!
Shallow embedding of `src/scheduler.py` (webhook-n8n): a scheduler that, on
each invocation, decides whether to call an external webhook, tracking a
monthly budget in a persisted JSON record and layering calendar and
stochastic gates.

Modelling conventions:
* The persisted JSON record (`call_log.json`) is an association list of
  string keys and JSON values, with Python-dict semantics for lookup and
  update; a missing file is `Option.none`.
* `datetime.now(TIMEZONE)` is a `Clock` record of the readings the code
  uses: calendar year, month, day, hour, weekday (Monday = 0) and ISO week
  number.
* Python's global `random` module is a deterministic PRNG. It is modelled
  by an `Rng` state: a stream of uniform draws in `[0, 1)` and a position.
  `random.seed s` replaces the stream with `gen s`, where
  `gen : String → Nat → ℚ` (the seeded generator family) is a parameter of
  the development. The `trace` field is a ghost log of the values drawn,
  used to state determinism properties.
* Uncaught Python exceptions (`KeyError`, `TypeError`) are `Except.error`
  with the exception name.
* Floats are modelled exactly: the gate comparisons use rational
  constants; only `random.expovariate` (a logarithm) lives in `ℝ`.
-/

/-- A JSON value as stored in `call_log.json`: `null`, a string, or an
integer. -/
inductive JValue where
  | null : JValue
  | str : String → JValue
  | int : Int → JValue
deriving DecidableEq

/-- A JSON object with Python-dict semantics: an association list of
string keys and values, in insertion order. -/
def JRecord : Type := List (String × JValue)

instance : DecidableEq JRecord := by
  unfold JRecord
  infer_instance

/-- Python dict lookup `d[k]` as an `Option` (`none` models `KeyError`). -/
def lookupKey : JRecord → String → Option JValue
  | [], _ => none
  | (k1, v) :: t, k => if k1 = k then some v else lookupKey t k

/-- Python dict assignment `d[k] = v`: update in place if the key exists,
else append (insertion order preserved). -/
def setKey : JRecord → String → JValue → JRecord
  | [], k, v => [(k, v)]
  | (k1, v1) :: t, k, v => if k1 = k then (k, v) :: t else (k1, v1) :: setKey t k v

/-- Python `d[k]` with the `KeyError` it raises on a missing key. -/
def getKey (log : JRecord) (k : String) : Except String JValue :=
  match lookupKey log k with
  | some v => Except.ok v
  | none => Except.error ("KeyError: " ++ k)

/-- Reading a JSON value as an integer; the comparison
`log[\x27count\x27] >= MAX_CALLS_PER_MONTH` raises `TypeError` on a
non-integer. -/
def asInt : JValue → Except String Int
  | JValue.int n => Except.ok n
  | _ => Except.error "TypeError"

/-- Python `j != s` for a JSON value `j` and a string `s`, negated: a
non-string compares unequal to every string. -/
def jEqStr : JValue → String → Bool
  | JValue.str t, s => t == s
  | _, _ => false

/-- The readings of `datetime.now(TIMEZONE)` that `scheduler.py` uses:
`year`, `month`, `day`, `hour`, `weekday()` (Monday = 0, Sunday = 6) and
`isocalendar()[1]` (the ISO week number). -/
structure Clock where
  year : Int
  month : Nat
  day : Nat
  hour : Nat
  weekday : Nat
  isoWeek : Nat

/-- The state of Python's global `random` module: the stream of uniform
`[0, 1)` draws it will produce, the position of the next draw, and a ghost
`trace` of all values drawn so far (used only in theorem statements). -/
structure Rng where
  stream : Nat → ℚ
  pos : Nat
  trace : List ℚ

/-- `random.random()`: the next uniform draw, advancing the state and
logging the value in the ghost trace. -/
def Rng.random (r : Rng) : ℚ × Rng :=
  (r.stream r.pos, ⟨r.stream, r.pos + 1, r.trace ++ [r.stream r.pos]⟩)

/-- `random.seed(s)`: re-seed the global generator, replacing the draw
stream by the seeded family `gen s`. The ghost trace of past draws is
kept. -/
def Rng.seed (gen : String → Nat → ℚ) (s : String) (r : Rng) : Rng :=
  ⟨gen s, 0, r.trace⟩

/-- `random.uniform(a, b) = a + (b - a) * random.random()`. -/
def Rng.uniform (r : Rng) (a b : ℚ) : ℚ × Rng :=
  let u := Rng.random r
  (a + (b - a) * u.1, u.2)

/-- `MAX_CALLS_PER_MONTH = 1800` (scheduler.py line 19). -/
def MAX_CALLS_PER_MONTH : Int := 1800

/-- `BUSINESS_START = 9` (scheduler.py line 22). -/
def BUSINESS_START : Nat := 9

/-- `BUSINESS_END = 17` (scheduler.py line 23). -/
def BUSINESS_END : Nat := 17

/-- `LUNCH_START = 12` (scheduler.py line 26). -/
def LUNCH_START : Nat := 12

/-- `LUNCH_END = 14` (scheduler.py line 27). -/
def LUNCH_END : Nat := 14

/-- `LUNCH_ACTIVITY_REDUCTION = 0.3` (scheduler.py line 28). -/
def LUNCH_ACTIVITY_REDUCTION : ℚ := 0.3

/-- The default record `{'month': None, 'count': 0}` returned by
`load_call_log` when no file exists (scheduler.py line 36). -/
def default_call_log : JRecord :=
  [("month", JValue.null), ("count", JValue.int 0)]

/-- `load_call_log()` (scheduler.py lines 31-36): return the parsed file
if it exists, else the default record. The store is `none` when no file
exists. -/
def load_call_log : Option JRecord → JRecord
  | some rec => rec
  | none => default_call_log

/-- Zero-padding to two digits, as `strftime` does for `%m`. -/
def pad2 (n : Nat) : String :=
  if n < 10 then "0" ++ toString n else toString n

/-- `get_current_month()` (scheduler.py lines 45-47):
`datetime.now(TIMEZONE).strftime(\x27%Y-%m\x27)`. -/
def get_current_month (c : Clock) : String :=
  toString c.year ++ "-" ++ pad2 c.month

/-- `is_vacation_period()` (scheduler.py lines 50-70): August, the
Dec 20 - Jan 6 window, else re-seed the global generator with
`f"{now.year}-{week_number}"` and draw once, returning true iff the draw
is below `0.10`. -/
def is_vacation_period (gen : String → Nat → ℚ) (c : Clock) (r : Rng) : Bool × Rng :=
  if c.month = 8 then (true, r)
  else if (c.month = 12 ∧ 20 ≤ c.day) ∨ (c.month = 1 ∧ c.day ≤ 6) then (true, r)
  else
    let r1 := Rng.seed gen (toString c.year ++ "-" ++ toString c.isoWeek) r
    let u := Rng.random r1
    if u.1 < 0.10 then (true, u.2) else (false, u.2)

/-- `is_business_hours()` (scheduler.py lines 73-83): false on weekends
(`weekday() >= 5`), else true iff `BUSINESS_START <= hour < BUSINESS_END`. -/
def is_business_hours (c : Clock) : Bool :=
  if 5 ≤ c.weekday then false
  else decide (BUSINESS_START ≤ c.hour ∧ c.hour < BUSINESS_END)

/-- `get_day_activity_multiplier()` (scheduler.py lines 86-102): a
day-of-week base plus a uniform perturbation, clamped to `[0.7, 1.05]`. -/
def get_day_activity_multiplier (c : Clock) (r : Rng) : ℚ × Rng :=
  let day := c.weekday
  let m :=
    if day = 0 then
      let u := Rng.uniform r (-0.05) 0.10
      (0.85 + u.1, u.2)
    else if day = 4 then
      let u := Rng.uniform r (-0.10) 0.10
      (0.90 + u.1, u.2)
    else
      let u := Rng.uniform r (-0.05) 0.05
      (1.0 + u.1, u.2)
  (max 0.7 (min m.1 1.05), m.2)

/-- `get_lunch_multiplier()` (scheduler.py lines 105-115): inside the
lunch window, `1 - clamp(0.3 + uniform(-0.15, 0.10), 0.10, 0.50)`;
outside it, `1.0` with no draw. -/
def get_lunch_multiplier (c : Clock) (r : Rng) : ℚ × Rng :=
  if LUNCH_START ≤ c.hour ∧ c.hour < LUNCH_END then
    let u := Rng.uniform r (-0.15) 0.10
    let red := max 0.10 (min (LUNCH_ACTIVITY_REDUCTION + u.1) 0.50)
    (1.0 - red, u.2)
  else (1.0, r)

/-- `should_skip_day()` (scheduler.py lines 118-123): draw a skip chance
uniform in `[0.02, 0.05]`, then skip iff a fresh draw is below it. -/
def should_skip_day (r : Rng) : Bool × Rng :=
  let sc := Rng.uniform r 0.02 0.05
  let u := Rng.random sc.2
  (u.1 < sc.1, u.2)

/-- `should_skip_hour()` (scheduler.py lines 126-153): an hour-band base
skip probability, perturbed by `uniform(-0.03, 0.05)` and clamped to
`[0, 0.4]`; skip iff a fresh draw is below it. -/
def should_skip_hour (c : Clock) (r : Rng) : Bool × Rng :=
  let hour := c.hour
  let base_skip : ℚ :=
    if 9 ≤ hour ∧ hour < 10 then 0.05
    else if 10 ≤ hour ∧ hour < 12 then 0.08
    else if 12 ≤ hour ∧ hour < 14 then 0.25
    else if 14 ≤ hour ∧ hour < 16 then 0.10
    else 0.15
  let u := Rng.uniform r (-0.03) 0.05
  let sc := max 0 (min (base_skip + u.1) 0.4)
  let u2 := Rng.random u.2
  (u2.1 < sc, u2.2)

/-- The reason printed with a skip decision in `should_execute`
(scheduler.py lines 170, 175, 180, 185, 190, 209). -/
inductive Reason where
  | budget : Reason
  | vacation : Reason
  | businessHours : Reason
  | daySkip : Reason
  | hourSkip : Reason
  | probRoll : Reason
deriving DecidableEq

/-- The outcome of one decision cycle: `should_execute` returns `True`
(accept) or `False` together with the printed reason. -/
inductive Decision where
  | accept : Decision
  | reject : Reason → Decision
deriving DecidableEq

/-- Step 1 of `should_execute` (scheduler.py lines 159-166): read
`log[\x27month\x27]`; if it differs from the current month token, set the
month and zero the count; the boolean records whether `save_call_log` was
called. -/
def month_reset_step (log : JRecord) (current_month : String) :
    Except String (JRecord × Bool) :=
  match getKey log "month" with
  | Except.error e => Except.error e
  | Except.ok mv =>
    if !(jEqStr mv current_month) then
      Except.ok (setKey (setKey log "month" (JValue.str current_month)) "count" (JValue.int 0), true)
    else
      Except.ok (log, false)

/-- `final_probability = base_probability * day_mult * lunch_mult`, times
`0.3` when the 5% micro-break triggers (scheduler.py lines 200-204). -/
def final_fire_probability (base day_mult lunch_mult : ℚ) (micro_break : Bool) : ℚ :=
  let p := base * day_mult * lunch_mult
  if micro_break then p * 0.3 else p

/-- The gate sequence of `should_execute` after the budget check
(scheduler.py lines 173-212): vacation, business hours, day skip, hour
skip, then the final probability roll
(`random.random() > final_probability` skips). -/
def run_gates (gen : String → Nat → ℚ) (c : Clock) (r : Rng) : Decision × Rng :=
  let vac := is_vacation_period gen c r
  if vac.1 then (Decision.reject Reason.vacation, vac.2)
  else if !(is_business_hours c) then (Decision.reject Reason.businessHours, vac.2)
  else
    let sd := should_skip_day vac.2
    if sd.1 then (Decision.reject Reason.daySkip, sd.2)
    else
      let sh := should_skip_hour c sd.2
      if sh.1 then (Decision.reject Reason.hourSkip, sh.2)
      else
        let dm := get_day_activity_multiplier c sh.2
        let lm := get_lunch_multiplier c dm.2
        let bp := Rng.uniform lm.2 0.85 0.98
        let mb := Rng.random bp.2
        let fp := final_fire_probability bp.1 dm.1 lm.1 (mb.1 < 0.05)
        let roll := Rng.random mb.2
        if fp < roll.1 then (Decision.reject Reason.probRoll, roll.2)
        else (Decision.accept, roll.2)

/-- `should_execute()` (scheduler.py lines 156-212): load the record,
run the month-reset step (persisting on reset), reject when
`log[\x27count\x27] >= MAX_CALLS_PER_MONTH`, else run the remaining
gates. Returns the decision, the store after any persist, and the final
generator state; `Except.error` models an uncaught exception. -/
def should_execute (gen : String → Nat → ℚ) (c : Clock) (store : Option JRecord)
    (r0 : Rng) : Except String (Decision × Option JRecord × Rng) :=
  let log0 := load_call_log store
  let current_month := get_current_month c
  match month_reset_step log0 current_month with
  | Except.error e => Except.error e
  | Except.ok ls =>
    let log := ls.1
    let store1 := if ls.2 then some log else store
    match getKey log "count" with
    | Except.error e => Except.error e
    | Except.ok cv =>
      match asInt cv with
      | Except.error e => Except.error e
      | Except.ok n =>
        if MAX_CALLS_PER_MONTH ≤ n then
          Except.ok (Decision.reject Reason.budget, store1, r0)
        else
          let dr := run_gates gen c r0
          Except.ok (dr.1, store1, dr.2)

/-- `random.expovariate(lambd) = -log(1 - random()) / lambd`, applied to
the uniform draw `u`. -/
noncomputable def expovariate (lambd : ℝ) (u : ℚ) : ℝ :=
  -Real.log (1 - (u : ℝ)) / lambd

/-- `add_human_jitter()` (scheduler.py lines 215-231): a three-branch
mixture. `random() < 0.15`: uniform in `[0, 60]`; else `random() < 0.70`:
`expovariate(1/180)` capped at `600`; else uniform in `[300, 900]`.
Returns the delay slept and the advanced generator state. -/
noncomputable def add_human_jitter (r : Rng) : ℝ × Rng :=
  let u1 := Rng.random r
  if u1.1 < 0.15 then
    let j := Rng.uniform u1.2 0 60
    ((j.1 : ℝ), j.2)
  else
    let u2 := Rng.random u1.2
    if u2.1 < 0.70 then
      let u3 := Rng.random u2.2
      (min (expovariate (1 / 180) u3.1) 600, u3.2)
    else
      let j := Rng.uniform u2.2 300 900
      ((j.1 : ℝ), j.2)

/-- `response.raise_for_status()` raises `requests.exceptions.HTTPError`
(a `RequestException`) exactly for status codes in `[400, 600)`; other
statuses, 2xx or not, do not raise. -/
def raise_for_status_raises (status : Nat) : Bool :=
  decide (400 ≤ status ∧ status < 600)

/-- `call_webhook()` (scheduler.py lines 234-272). `webhook_url` models
the `N8N_WEBHOOK_URL` environment variable; `timestamp` the ISO string
taken before the jitter; `net` the outcome of the single
`requests.post` (`Except.error ()` is a raised `RequestException`:
timeout or connection failure; `Except.ok status` a response). A
`RequestException` — including the one `raise_for_status` raises for a
4xx/5xx status — is caught, returning `False` with the store untouched.
Otherwise the record is reloaded, `count` incremented, `last_call` set,
and the record persisted. -/
noncomputable def call_webhook (webhook_url : Option String) (timestamp : String)
    (net : Except Unit Nat) (store : Option JRecord) (r : Rng) :
    Except String (Bool × Option JRecord × Rng) :=
  match webhook_url with
  | none => Except.ok (false, store, r)
  | some _ =>
    let jit := add_human_jitter r
    match net with
    | Except.error _ => Except.ok (false, store, jit.2)
    | Except.ok status =>
      if raise_for_status_raises status then Except.ok (false, store, jit.2)
      else
        let log := load_call_log store
        match getKey log "count" with
        | Except.error e => Except.error e
        | Except.ok cv =>
          match asInt cv with
          | Except.error e => Except.error e
          | Except.ok n =>
            let log1 := setKey log "count" (JValue.int (n + 1))
            let log2 := setKey log1 "last_call" (JValue.str timestamp)
            Except.ok (true, some log2, jit.2)

instance {ε α : Type} [DecidableEq ε] [DecidableEq α] : DecidableEq (Except ε α)
  | Except.error a, Except.error b =>
    if h : a = b then isTrue (by rw [h]) else isFalse (by intro hc; cases hc; exact h rfl)
  | Except.error _, Except.ok _ => isFalse (by intro hc; cases hc)
  | Except.ok _, Except.error _ => isFalse (by intro hc; cases hc)
  | Except.ok a, Except.ok b =>
    if h : a = b then isTrue (by rw [h]) else isFalse (by intro hc; cases hc; exact h rfl)

/-- A seeded generator family that always draws 0, used for concrete
runs. -/
def gen0 : String → Nat → ℚ := fun _ _ => 0

/-- A seeded generator family that always draws 1/2, used for concrete
runs where the weekly vacation draw must not fire. -/
def gen1 : String → Nat → ℚ := fun _ _ => 1 / 2

/-- A concrete generator state whose every draw is 0. -/
def rng0 : Rng := ⟨fun _ => 0, 0, []⟩

/-- A second concrete generator state, differing from `rng0` in stream
and position but with the same empty trace. -/
def rngAlt : Rng := ⟨fun _ => 1 / 3, 7, []⟩

/-- Wednesday 2024-05-15, 10:00 Rome time (weekday 2, ISO week 20). -/
def clockMay : Clock := ⟨2024, 5, 15, 10, 2, 20⟩

/-- Saturday 2024-05-18, 10:00 Rome time (weekday 5, ISO week 20). -/
def clockSat : Clock := ⟨2024, 5, 18, 10, 5, 20⟩

/-- Saturday 2024-08-03, 10:00 Rome time (weekday 5, ISO week 31):
a Saturday inside the August vacation window. -/
def clockAugSat : Clock := ⟨2024, 8, 3, 10, 5, 31⟩

/-- A stored record for May 2024 at the monthly cap. -/
def recMay1800 : JRecord := [("month", JValue.str "2024-05"), ("count", JValue.int 1800)]

/-- A stored record for May 2024 with 5 calls. -/
def recMay5 : JRecord := [("month", JValue.str "2024-05"), ("count", JValue.int 5)]

/-- A stored record for August 2024 with no calls. -/
def recAug0 : JRecord := [("month", JValue.str "2024-08"), ("count", JValue.int 0)]

/-- A stored record from the prior month, April 2024. -/
def recApr7 : JRecord := [("month", JValue.str "2024-04"), ("count", JValue.int 7)]

/-- A stored record lacking the `month` field. -/
def recNoMonth : JRecord := [("count", JValue.int 5)]

/-- A stored record for May 2024 lacking the `count` field, with an
unknown extra field. -/
def recNoCount : JRecord := [("month", JValue.str "2024-05"), ("extra", JValue.int 9)]

/-- A stored record from April 2024 lacking the `count` field. -/
def recAprNoCount : JRecord := [("month", JValue.str "2024-04")]

/-- Friday 2024-05-17, 16:00 Rome time: a different day and hour in the
same ISO week 20 as `clockMay`. -/
def clockMay2 : Clock := ⟨2024, 5, 17, 16, 4, 20⟩

/-- Updating a key and then looking it up yields the new value. -/
theorem lookupKey_setKey_self (r : JRecord) (k : String) (v : JValue) :
    lookupKey (setKey r k v) k = some v := by
  induction r with
  | nil => simp [setKey, lookupKey]
  | cons hd tl ih =>
    obtain ⟨k1, v1⟩ := hd
    by_cases hk : k1 = k <;> simp [setKey, lookupKey, hk, ih]

/-- Updating a key leaves the lookup of every other key unchanged. -/
theorem lookupKey_setKey_ne (r : JRecord) (k : String) (v : JValue) (k2 : String)
    (h : k2 ≠ k) : lookupKey (setKey r k v) k2 = lookupKey r k2 := by
  induction r with
  | nil =>
    have hk : ¬(k = k2) := fun hc => h hc.symm
    simp [setKey, lookupKey, hk]
  | cons hd tl ih =>
    obtain ⟨k1, v1⟩ := hd
    by_cases hk : k1 = k
    · have hne : ¬(k = k2) := fun hc => h hc.symm
      have hne1 : ¬(k1 = k2) := hk ▸ hne
      simp [setKey, lookupKey, hk, hne, hne1]
    · simp [setKey, lookupKey, hk, ih]

/-- The store component of a successful `should_execute` run is the one
fixed by the month-reset step: the updated record when a reset was
persisted, the untouched store otherwise. -/
theorem should_execute_store_eq (gen : String → Nat → ℚ) (c : Clock)
    (store : Option JRecord) (r0 : Rng) (log : JRecord) (saved : Bool)
    (x : Decision × Option JRecord × Rng)
    (hmr : month_reset_step (load_call_log store) (get_current_month c) =
      Except.ok (log, saved))
    (hx : should_execute gen c store r0 = Except.ok x) :
    x.2.1 = if saved then some log else store := by
  simp only [should_execute] at hx
  rw [hmr] at hx
  dsimp only at hx
  cases hgk : getKey log "count" with
  | error e => rw [hgk] at hx; cases hx
  | ok cv =>
    rw [hgk] at hx
    dsimp only at hx
    cases hai : asInt cv with
    | error e => rw [hai] at hx; cases hx
    | ok n =>
      rw [hai] at hx
      dsimp only at hx
      by_cases hb : MAX_CALLS_PER_MONTH ≤ n
      · rw [if_pos hb] at hx
        cases hx
        rfl
      · rw [if_neg hb] at hx
        cases hx
        rfl

/-- Claim C1: for every stored record whose month token equals the
current period, `should_execute` passes the budget check when
`count < MAX_CALLS_PER_MONTH` — its result is then exactly the result of
the later gates — and rejects with the budget-exhausted reason whenever
`count >= MAX_CALLS_PER_MONTH`, regardless of the outcomes of all later
gates (the result is then independent of the generator and of every
gate). -/
theorem C1_budget_gate (gen : String → Nat → ℚ) (c : Clock) (rec : JRecord)
    (r0 : Rng) (n : Int)
    (hm : lookupKey rec "month" = some (JValue.str (get_current_month c)))
    (hc : lookupKey rec "count" = some (JValue.int n)) :
    (n < MAX_CALLS_PER_MONTH →
      should_execute gen c (some rec) r0 =
        Except.ok ((run_gates gen c r0).1, some rec, (run_gates gen c r0).2)) ∧
    (MAX_CALLS_PER_MONTH ≤ n →
      should_execute gen c (some rec) r0 =
        Except.ok (Decision.reject Reason.budget, some rec, r0)) := by
  have hmr : month_reset_step rec (get_current_month c) = Except.ok (rec, false) := by
    simp [month_reset_step, getKey, hm, jEqStr]
  constructor
  · intro hlt
    have hnb : ¬(MAX_CALLS_PER_MONTH ≤ n) := not_le.mpr hlt
    simp [should_execute, load_call_log, hmr, getKey, hc, asInt, hnb]
  · intro hge
    simp [should_execute, load_call_log, hmr, getKey, hc, asInt, hge]

/-- Claim C1 witness: the spec scenario — stored record
`{month: "2024-05", count: 1800}` with cap 1800 in May 2024 is rejected
with the budget-exhausted reason. -/
theorem C1_budget_gate_witness :
    lookupKey recMay1800 "month" = some (JValue.str (get_current_month clockMay)) ∧
    lookupKey recMay1800 "count" = some (JValue.int 1800) ∧
    MAX_CALLS_PER_MONTH ≤ 1800 ∧
    should_execute gen0 clockMay (some recMay1800) rng0 =
      Except.ok (Decision.reject Reason.budget, some recMay1800, rng0) :=
  ⟨by decide, by decide, by decide,
    (C1_budget_gate gen0 clockMay recMay1800 rng0 1800 (by decide) (by decide)).2 (by decide)⟩

/-- Claim C2: step 1 of the orchestrator resets `count` to 0 and sets
the stored month to the current period token exactly when the stored
month token differs from the current period, and the record is persisted
exactly when that reset occurred (the persist flag is true, and every
successful run carries the updated record as its store); when the tokens
are equal, the record is unchanged, the persist flag is false, and the
store of every successful run is the original one. -/
theorem C2_month_reset (gen : String → Nat → ℚ) (c : Clock) (store : Option JRecord)
    (r0 : Rng) (mv : JValue)
    (h : lookupKey (load_call_log store) "month" = some mv) :
    (jEqStr mv (get_current_month c) = false →
      month_reset_step (load_call_log store) (get_current_month c) =
        Except.ok (setKey (setKey (load_call_log store) "month"
          (JValue.str (get_current_month c))) "count" (JValue.int 0), true) ∧
      lookupKey (setKey (setKey (load_call_log store) "month"
          (JValue.str (get_current_month c))) "count" (JValue.int 0)) "month" =
        some (JValue.str (get_current_month c)) ∧
      lookupKey (setKey (setKey (load_call_log store) "month"
          (JValue.str (get_current_month c))) "count" (JValue.int 0)) "count" =
        some (JValue.int 0) ∧
      (∀ x, should_execute gen c store r0 = Except.ok x →
        x.2.1 = some (setKey (setKey (load_call_log store) "month"
          (JValue.str (get_current_month c))) "count" (JValue.int 0)))) ∧
    (jEqStr mv (get_current_month c) = true →
      month_reset_step (load_call_log store) (get_current_month c) =
        Except.ok (load_call_log store, false) ∧
      (∀ x, should_execute gen c store r0 = Except.ok x → x.2.1 = store)) := by
  constructor
  · intro hne
    have hmr : month_reset_step (load_call_log store) (get_current_month c) =
        Except.ok (setKey (setKey (load_call_log store) "month"
          (JValue.str (get_current_month c))) "count" (JValue.int 0), true) := by
      simp [month_reset_step, getKey, h, hne]
    refine ⟨hmr, ?_, ?_, ?_⟩
    · rw [lookupKey_setKey_ne _ _ _ _ (by decide : "month" ≠ "count")]
      exact lookupKey_setKey_self _ _ _
    · exact lookupKey_setKey_self _ _ _
    · intro x hx
      have := should_execute_store_eq gen c store r0 _ true x hmr hx
      simpa using this
  · intro heq
    have hmr : month_reset_step (load_call_log store) (get_current_month c) =
        Except.ok (load_call_log store, false) := by
      simp [month_reset_step, getKey, h, heq]
    refine ⟨hmr, ?_⟩
    intro x hx
    have := should_execute_store_eq gen c store r0 _ false x hmr hx
    simpa using this

/-- Claim C2 witness: the spec scenario — stored month token
`"2024-04"`, current period `"2024-05"`: step 1 resets the record to
`{month: "2024-05", count: 0}` and persists it. -/
theorem C2_month_reset_witness :
    lookupKey (load_call_log (some recApr7)) "month" = some (JValue.str "2024-04") ∧
    jEqStr (JValue.str "2024-04") (get_current_month clockMay) = false ∧
    month_reset_step (load_call_log (some recApr7)) (get_current_month clockMay) =
      Except.ok (setKey (setKey (load_call_log (some recApr7)) "month"
        (JValue.str (get_current_month clockMay))) "count" (JValue.int 0), true) ∧
    lookupKey (setKey (setKey (load_call_log (some recApr7)) "month"
        (JValue.str (get_current_month clockMay))) "count" (JValue.int 0)) "month" =
      some (JValue.str (get_current_month clockMay)) ∧
    lookupKey (setKey (setKey (load_call_log (some recApr7)) "month"
        (JValue.str (get_current_month clockMay))) "count" (JValue.int 0)) "count" =
      some (JValue.int 0) :=
  ⟨by decide, by decide,
    ((C2_month_reset gen0 clockMay (some recApr7) rng0 (JValue.str "2024-04")
      (by decide)).1 (by decide)).1,
    ((C2_month_reset gen0 clockMay (some recApr7) rng0 (JValue.str "2024-04")
      (by decide)).1 (by decide)).2.1,
    ((C2_month_reset gen0 clockMay (some recApr7) rng0 (JValue.str "2024-04")
      (by decide)).1 (by decide)).2.2.1⟩

/-- Claim C3 counterexample: a non-2xx response whose status is not in
the 4xx/5xx range — here `304 Not Modified` — does not raise in
`raise_for_status`, so `call_webhook` increments `count`, sets
`last_call` and persists the record, contradicting the claim that every
non-2xx response leaves the CallLog unmodified. -/
theorem C3_counterexample :
    raise_for_status_raises 304 = false ∧
    (call_webhook (some "u") "T" (Except.ok 304) (some recMay5) rng0).map
        (fun x => (x.1, x.2.1)) =
      Except.ok (true, some [("month", JValue.str "2024-05"),
        ("count", JValue.int 6), ("last_call", JValue.str "T")]) :=
  ⟨by decide, by rfl⟩

/-- Claim C3 as amended: `call_webhook` increments `count`, sets
`last_call` and persists the record exactly when the single request
completes without a `RequestException`, i.e. when the response status is
outside the 4xx/5xx range `raise_for_status` raises on (this includes
non-2xx statuses below 400, such as 304); on a raised request error
(timeout, connection failure, or a 4xx/5xx status) it reports failure
and the store is left completely unmodified. The single `net` argument
models the one `requests.post` of the invocation: no retry exists. -/
theorem C3_executor (url ts : String) (store : Option JRecord) (r : Rng) :
    ((call_webhook (some url) ts (Except.error ()) store r).map
        (fun x => (x.1, x.2.1)) = Except.ok (false, store)) ∧
    (∀ status : Nat, raise_for_status_raises status = true →
      (call_webhook (some url) ts (Except.ok status) store r).map
          (fun x => (x.1, x.2.1)) = Except.ok (false, store)) ∧
    (∀ (status : Nat) (rec : JRecord) (n : Int),
      raise_for_status_raises status = false →
      store = some rec →
      lookupKey rec "count" = some (JValue.int n) →
      (call_webhook (some url) ts (Except.ok status) store r).map
          (fun x => (x.1, x.2.1)) =
        Except.ok (true, some (setKey (setKey rec "count" (JValue.int (n + 1)))
          "last_call" (JValue.str ts))) ∧
      lookupKey (setKey (setKey rec "count" (JValue.int (n + 1)))
          "last_call" (JValue.str ts)) "count" = some (JValue.int (n + 1)) ∧
      lookupKey (setKey (setKey rec "count" (JValue.int (n + 1)))
          "last_call" (JValue.str ts)) "last_call" = some (JValue.str ts)) := by
  refine ⟨?_, ?_, ?_⟩
  · simp [call_webhook, Except.map]
  · intro status h
    simp [call_webhook, h, Except.map]
  · intro status rec n h hst hc
    subst hst
    refine ⟨?_, ?_, ?_⟩
    · simp [call_webhook, h, load_call_log, getKey, hc, asInt, Except.map]
    · rw [lookupKey_setKey_ne _ _ _ _ (by decide : "count" ≠ "last_call")]
      exact lookupKey_setKey_self _ _ _
    · exact lookupKey_setKey_self _ _ _

/-- Claim C3 witness: concrete runs of the executor — a raised request
error and a 500 status leave the store untouched and report failure; a
200 status increments the count from 5 to 6, sets `last_call` and
persists. -/
theorem C3_executor_witness :
    ((call_webhook (some "u") "T" (Except.error ()) (some recMay5) rng0).map
        (fun x => (x.1, x.2.1)) = Except.ok (false, some recMay5)) ∧
    (raise_for_status_raises 500 = true ∧
      (call_webhook (some "u") "T" (Except.ok 500) (some recMay5) rng0).map
          (fun x => (x.1, x.2.1)) = Except.ok (false, some recMay5)) ∧
    (raise_for_status_raises 200 = false ∧
      (call_webhook (some "u") "T" (Except.ok 200) (some recMay5) rng0).map
          (fun x => (x.1, x.2.1)) =
        Except.ok (true, some (setKey (setKey recMay5 "count" (JValue.int 6))
          "last_call" (JValue.str "T")))) :=
  ⟨(C3_executor "u" "T" (some recMay5) rng0).1,
    ⟨by decide, (C3_executor "u" "T" (some recMay5) rng0).2.1 500 (by decide)⟩,
    ⟨by decide, ((C3_executor "u" "T" (some recMay5) rng0).2.2 200 recMay5 5
      (by decide) rfl (by decide)).1⟩⟩

/-- On a weekend day every gate run ends in a rejection, with either the
vacation reason or the outside-business-hours reason. -/
theorem run_gates_weekend (gen : String → Nat → ℚ) (c : Clock) (r : Rng)
    (hw : 5 ≤ c.weekday) :
    (run_gates gen c r).1 = Decision.reject Reason.vacation ∨
    (run_gates gen c r).1 = Decision.reject Reason.businessHours := by
  have hbh : is_business_hours c = false := by simp [is_business_hours, hw]
  by_cases hv : (is_vacation_period gen c r).1
  · simp [run_gates, hv]
  · simp [run_gates, hv, hbh]

/-- A successful `should_execute` run decides either by the budget gate
or by the gate sequence that follows it. -/
theorem should_execute_decision_cases (gen : String → Nat → ℚ) (c : Clock)
    (store : Option JRecord) (r0 : Rng) (x : Decision × Option JRecord × Rng)
    (hx : should_execute gen c store r0 = Except.ok x) :
    x.1 = Decision.reject Reason.budget ∨ x.1 = (run_gates gen c r0).1 := by
  simp only [should_execute] at hx
  cases hmr : month_reset_step (load_call_log store) (get_current_month c) with
  | error e => rw [hmr] at hx; cases hx
  | ok ls =>
    rw [hmr] at hx
    dsimp only at hx
    cases hgk : getKey ls.1 "count" with
    | error e => rw [hgk] at hx; cases hx
    | ok cv =>
      rw [hgk] at hx
      dsimp only at hx
      cases hai : asInt cv with
      | error e => rw [hai] at hx; cases hx
      | ok n =>
        rw [hai] at hx
        dsimp only at hx
        by_cases hb : MAX_CALLS_PER_MONTH ≤ n
        · rw [if_pos hb] at hx
          cases hx
          left
          rfl
        · rw [if_neg hb] at hx
          cases hx
          right
          rfl

/-- Claim C4 as amended: on a Saturday the orchestrator never accepts;
and when the gates that run earlier do not preempt it — the stored
record is for the current month with its count below the cap, the date
is outside the August and year-end windows, and the weekly vacation draw
does not fire — the rejection carries the outside-business-hours reason,
independent of all later gates. -/
theorem C4_saturday (gen : String → Nat → ℚ) (c : Clock) (store : Option JRecord)
    (r0 : Rng) (hsat : c.weekday = 5) :
    ((should_execute gen c store r0).map (fun x => x.1) ≠
      Except.ok Decision.accept) ∧
    (∀ (rec : JRecord) (n : Int),
      store = some rec →
      lookupKey rec "month" = some (JValue.str (get_current_month c)) →
      lookupKey rec "count" = some (JValue.int n) →
      n < MAX_CALLS_PER_MONTH →
      c.month ≠ 8 →
      ¬((c.month = 12 ∧ 20 ≤ c.day) ∨ (c.month = 1 ∧ c.day ≤ 6)) →
      ¬(gen (toString c.year ++ "-" ++ toString c.isoWeek) 0 < (0.10 : ℚ)) →
      (should_execute gen c store r0).map (fun x => x.1) =
        Except.ok (Decision.reject Reason.businessHours)) := by
  constructor
  · intro hcon
    cases he : should_execute gen c store r0 with
    | error e =>
      rw [he] at hcon
      simp [Except.map] at hcon
    | ok x =>
      rw [he] at hcon
      simp [Except.map] at hcon
      rcases should_execute_decision_cases gen c store r0 x he with h1 | h1
      · rw [hcon] at h1
        cases h1
      · rcases run_gates_weekend gen c r0 (by omega) with h2 | h2 <;>
          rw [hcon, h2] at h1 <;> cases h1
  · intro rec n hst hm hc hlt h8 hx12 hgen
    subst hst
    have hmr : month_reset_step rec (get_current_month c) = Except.ok (rec, false) := by
      simp [month_reset_step, getKey, hm, jEqStr]
    have hnb : ¬(MAX_CALLS_PER_MONTH ≤ n) := not_le.mpr hlt
    have hvac : (is_vacation_period gen c r0).1 = false := by
      simp [is_vacation_period, h8, hx12, Rng.seed, Rng.random, hgen]
    have hbh : is_business_hours c = false := by simp [is_business_hours, hsat]
    have hrg : (run_gates gen c r0).1 = Decision.reject Reason.businessHours := by
      simp [run_gates, hvac, hbh]
    simp [should_execute, load_call_log, hmr, getKey, hc, asInt, hnb, hrg, Except.map]

/-- Claim C4 counterexample: Saturday 2024-08-03 with a fresh August
record and the budget far from exhausted is rejected with the vacation
reason, not the outside-business-hours reason — the vacation gate runs
first and preempts the business-hours gate. -/
theorem C4_counterexample :
    clockAugSat.weekday = 5 ∧
    (should_execute gen1 clockAugSat (some recAug0) rng0).map (fun x => x.1) =
      Except.ok (Decision.reject Reason.vacation) ∧
    Decision.reject Reason.vacation ≠ Decision.reject Reason.businessHours :=
  ⟨by decide, by decide, by decide⟩

/-- Claim C4 witness: Saturday 2024-05-18 outside every vacation window,
with a current-month record below the cap and a weekly draw of 1/2: the
run is rejected with the outside-business-hours reason. -/
theorem C4_saturday_witness :
    clockSat.weekday = 5 ∧
    (should_execute gen1 clockSat (some recMay5) rng0).map (fun x => x.1) =
      Except.ok (Decision.reject Reason.businessHours) :=
  ⟨by decide, (C4_saturday gen1 clockSat (some recMay5) rng0 (by decide)).2 recMay5 5
    rfl (by decide) (by decide) (by decide) (by decide) (by decide)
    (by with_unfolding_all decide)⟩

/-- Claim C5: outside the fixed August and year-end vacation windows, the
random-week branch of `is_vacation_period` is deterministic for a given
(year, ISO week): any two calls whose clocks share the calendar year and
the ISO week number return the same boolean, whatever the prior states of
the global generator. -/
theorem C5_vacation_deterministic (gen : String → Nat → ℚ) (c1 c2 : Clock)
    (r1 r2 : Rng)
    (h1a : c1.month ≠ 8)
    (h1b : ¬((c1.month = 12 ∧ 20 ≤ c1.day) ∨ (c1.month = 1 ∧ c1.day ≤ 6)))
    (h2a : c2.month ≠ 8)
    (h2b : ¬((c2.month = 12 ∧ 20 ≤ c2.day) ∨ (c2.month = 1 ∧ c2.day ≤ 6)))
    (hy : c1.year = c2.year) (hw : c1.isoWeek = c2.isoWeek) :
    (is_vacation_period gen c1 r1).1 = (is_vacation_period gen c2 r2).1 := by
  simp [is_vacation_period, h1a, h1b, h2a, h2b, Rng.seed, Rng.random, hy, hw]
  split_ifs <;> rfl

/-- Claim C5 witness: Wednesday 10:00 and Friday 16:00 of ISO week 20 of
2024 give the same weekly-vacation boolean, from different generator
states. -/
theorem C5_vacation_deterministic_witness :
    clockMay.year = clockMay2.year ∧ clockMay.isoWeek = clockMay2.isoWeek ∧
    (is_vacation_period gen1 clockMay rng0).1 =
      (is_vacation_period gen1 clockMay2 rngAlt).1 :=
  ⟨by decide, by decide,
    C5_vacation_deterministic gen1 clockMay clockMay2 rng0 rngAlt
      (by decide) (by decide) (by decide) (by decide) (by decide) (by decide)⟩

/-- The gate run after the budget check is a function of the clock and
the seeded generator family alone: since `is_vacation_period` re-seeds
the global generator before the first draw of the invocation, two
generator states that agree on the ghost trace of past draws yield the
same decision and the same list of drawn values. -/
theorem run_gates_trace_indep (gen : String → Nat → ℚ) (c : Clock) (r r2 : Rng)
    (h : r.trace = r2.trace) :
    (run_gates gen c r).1 = (run_gates gen c r2).1 ∧
    (run_gates gen c r).2.trace = (run_gates gen c r2).2.trace := by
  by_cases h8 : c.month = 8
  · constructor <;> simp [run_gates, is_vacation_period, h8, h]
  · by_cases hx : (c.month = 12 ∧ 20 ≤ c.day) ∨ (c.month = 1 ∧ c.day ≤ 6)
    · constructor <;> simp [run_gates, is_vacation_period, h8, hx, h]
    · have heq : is_vacation_period gen c r = is_vacation_period gen c r2 := by
        simp [is_vacation_period, h8, hx, Rng.seed, Rng.random, h]
      constructor <;> unfold run_gates <;> rw [heq]

/-- Claim C6: because `is_vacation_period` re-seeds the process-global
generator with the string `"{year}-{week_number}"`, every stochastic draw
made after it inside the same invocation of `should_execute` is a
deterministic function of the clock and the seeded family: two runs with
the same clock and store, from arbitrary prior generator states (with
equal ghost traces), produce the same decision, the same persisted
store, and identical lists of drawn values — the day-skip draw included,
despite the in-code comment calling it truly unpredictable. -/
theorem C6_reseed_determinism (gen : String → Nat → ℚ) (c : Clock)
    (store : Option JRecord) (r0 r0' : Rng) (h : r0.trace = r0'.trace) :
    (should_execute gen c store r0).map (fun x => (x.1, x.2.1, x.2.2.trace)) =
    (should_execute gen c store r0').map (fun x => (x.1, x.2.1, x.2.2.trace)) := by
  have hrg := run_gates_trace_indep gen c r0 r0' h
  simp only [should_execute]
  cases hmr : month_reset_step (load_call_log store) (get_current_month c) with
  | error e => rfl
  | ok ls =>
    dsimp only
    cases hgk : getKey ls.1 "count" with
    | error e => rfl
    | ok cv =>
      dsimp only
      cases hai : asInt cv with
      | error e => rfl
      | ok n =>
        dsimp only
        by_cases hb : MAX_CALLS_PER_MONTH ≤ n
        · rw [if_pos hb, if_pos hb]
          simp [Except.map, h]
        · rw [if_neg hb, if_neg hb]
          simp [Except.map, hrg.1, hrg.2]

/-- Claim C6 witness: the same May 2024 clock and store, run from the
two different generator states `rng0` and `rngAlt`, give the same
decision, store and draw trace. -/
theorem C6_reseed_determinism_witness :
    rng0.trace = rngAlt.trace ∧
    (should_execute gen1 clockMay (some recMay5) rng0).map
        (fun x => (x.1, x.2.1, x.2.2.trace)) =
      (should_execute gen1 clockMay (some recMay5) rngAlt).map
        (fun x => (x.1, x.2.1, x.2.2.trace)) :=
  ⟨rfl, C6_reseed_determinism gen1 clockMay (some recMay5) rng0 rngAlt rfl⟩

/-- Claim C7 counterexample: a stored record lacking the `month` field is
not defaulted — `should_execute` fails with a `KeyError` in its first
step, contradicting the claim that missing fields are treated as their
defaults and the orchestrator proceeds without error. -/
theorem C7_counterexample :
    lookupKey recNoMonth "month" = none ∧
    should_execute gen0 clockMay (some recNoMonth) rng0 =
      Except.error "KeyError: month" :=
  ⟨by decide, by rfl⟩

/-- Claim C7 as amended: unknown extra fields are ignored — any stored
record carrying a `month` field and an integer `count` field is processed
without error, whatever other fields it holds — and when no record exists
the defaults `{month: null, count: 0}` are used; but missing fields are
not defaulted: a record lacking `month` fails with a `KeyError`, and a
record lacking `count` fails with a `KeyError` when its month token
matches the current period (only when the token differs is the count
field created by the reset, so the run proceeds). -/
theorem C7_missing_fields :
    (∀ (gen : String → Nat → ℚ) (c : Clock) (rec : JRecord) (r0 : Rng)
      (mv : JValue) (n : Int),
      lookupKey rec "month" = some mv →
      lookupKey rec "count" = some (JValue.int n) →
      ∃ x, should_execute gen c (some rec) r0 = Except.ok x) ∧
    (∀ (gen : String → Nat → ℚ) (c : Clock) (rec : JRecord) (r0 : Rng),
      lookupKey rec "month" = none →
      should_execute gen c (some rec) r0 = Except.error "KeyError: month") ∧
    (∀ (gen : String → Nat → ℚ) (c : Clock) (rec : JRecord) (r0 : Rng)
      (mv : JValue),
      lookupKey rec "month" = some mv →
      lookupKey rec "count" = none →
      (jEqStr mv (get_current_month c) = false →
        ∃ x, should_execute gen c (some rec) r0 = Except.ok x) ∧
      (jEqStr mv (get_current_month c) = true →
        should_execute gen c (some rec) r0 = Except.error "KeyError: count")) ∧
    (∀ (gen : String → Nat → ℚ) (c : Clock) (r0 : Rng),
      ∃ x, should_execute gen c none r0 = Except.ok x) := by
  have h0 : ¬(MAX_CALLS_PER_MONTH ≤ (0 : Int)) := by norm_num [MAX_CALLS_PER_MONTH]
  refine ⟨?_, ?_, ?_, ?_⟩
  · intro gen c rec r0 mv n hm hc
    by_cases hj : jEqStr mv (get_current_month c) = true
    · have hmr : month_reset_step rec (get_current_month c) = Except.ok (rec, false) := by
        simp [month_reset_step, getKey, hm, hj]
      by_cases hb : MAX_CALLS_PER_MONTH ≤ n
      · exact ⟨_, by simp [should_execute, load_call_log, hmr, getKey, hc, asInt, hb]; rfl⟩
      · exact ⟨_, by simp [should_execute, load_call_log, hmr, getKey, hc, asInt, hb]; rfl⟩
    · rw [Bool.not_eq_true] at hj
      have hmr : month_reset_step rec (get_current_month c) =
          Except.ok (setKey (setKey rec "month"
            (JValue.str (get_current_month c))) "count" (JValue.int 0), true) := by
        simp [month_reset_step, getKey, hm, hj]
      exact ⟨_, by
        simp [should_execute, load_call_log, hmr, getKey, lookupKey_setKey_self,
          asInt, h0]
        rfl⟩
  · intro gen c rec r0 hm
    simp [should_execute, load_call_log, month_reset_step, getKey, hm]
  · intro gen c rec r0 mv hm hc
    constructor
    · intro hj
      have hmr : month_reset_step rec (get_current_month c) =
          Except.ok (setKey (setKey rec "month"
            (JValue.str (get_current_month c))) "count" (JValue.int 0), true) := by
        simp [month_reset_step, getKey, hm, hj]
      exact ⟨_, by
        simp [should_execute, load_call_log, hmr, getKey, lookupKey_setKey_self,
          asInt, h0]
        rfl⟩
    · intro hj
      have hmr : month_reset_step rec (get_current_month c) = Except.ok (rec, false) := by
        simp [month_reset_step, getKey, hm, hj]
      simp [should_execute, load_call_log, hmr, getKey, hc]
  · intro gen c r0
    have hm : lookupKey default_call_log "month" = some JValue.null := by decide
    have hmr : month_reset_step default_call_log (get_current_month c) =
        Except.ok (setKey (setKey default_call_log "month"
          (JValue.str (get_current_month c))) "count" (JValue.int 0), true) := by
      simp [month_reset_step, getKey, hm, jEqStr]
    exact ⟨_, by
      simp [should_execute, load_call_log, hmr, getKey, lookupKey_setKey_self,
        asInt, h0]
      rfl⟩

/-- Claim C7 witness: concrete records — a full record and a record with
only an extra field plus month run fine; a record lacking `month` raises
`KeyError: month`; one lacking `count` in the current month raises
`KeyError: count`, while the same lack in a prior month proceeds via the
reset; an absent file proceeds on defaults. -/
theorem C7_missing_fields_witness :
    (∃ x, should_execute gen1 clockMay (some recMay5) rng0 = Except.ok x) ∧
    should_execute gen0 clockMay (some recNoMonth) rng0 =
      Except.error "KeyError: month" ∧
    should_execute gen0 clockMay (some recNoCount) rng0 =
      Except.error "KeyError: count" ∧
    (∃ x, should_execute gen1 clockMay (some recAprNoCount) rng0 = Except.ok x) ∧
    (∃ x, should_execute gen1 clockMay none rng0 = Except.ok x) :=
  ⟨C7_missing_fields.1 gen1 clockMay recMay5 rng0 (JValue.str "2024-05") 5
      (by decide) (by decide),
    C7_missing_fields.2.1 gen0 clockMay recNoMonth rng0 (by decide),
    (C7_missing_fields.2.2.1 gen0 clockMay recNoCount rng0 (JValue.str "2024-05")
      (by decide) (by decide)).2 (by decide),
    (C7_missing_fields.2.2.1 gen1 clockMay recAprNoCount rng0 (JValue.str "2024-04")
      (by decide) (by decide)).1 (by decide),
    C7_missing_fields.2.2.2 gen1 clockMay rng0⟩

/-- Claim C8: `is_business_hours` returns false for every hour value on
the two weekend days (Saturday, `weekday = 5`, and Sunday, `weekday = 6`),
and on any weekday returns true if and only if the current hour lies in
`[BUSINESS_START, BUSINESS_END) = [9, 17)`. -/
theorem C8_business_hours (c : Clock) :
    ((c.weekday = 5 ∨ c.weekday = 6) → is_business_hours c = false) ∧
    (c.weekday < 5 →
      (is_business_hours c = true ↔
        BUSINESS_START ≤ c.hour ∧ c.hour < BUSINESS_END)) := by
  constructor
  · intro h
    have hw : 5 ≤ c.weekday := by rcases h with h | h <;> omega
    simp [is_business_hours, hw]
  · intro h
    have hw : ¬(5 ≤ c.weekday) := by omega
    simp [is_business_hours, hw]

/-- Claim C8 witness: Saturday 2024-05-18 at 10:00 is outside business
hours; Wednesday 2024-05-15 at 10:00 satisfies the weekday form. -/
theorem C8_business_hours_witness :
    (clockSat.weekday = 5 ∨ clockSat.weekday = 6) ∧
    is_business_hours clockSat = false ∧
    clockMay.weekday < 5 ∧
    (is_business_hours clockMay = true ↔
      BUSINESS_START ≤ clockMay.hour ∧ clockMay.hour < BUSINESS_END) :=
  ⟨Or.inl (by decide), (C8_business_hours clockSat).1 (Or.inl (by decide)),
    by decide, (C8_business_hours clockMay).2 (by decide)⟩

/-- Claim C9: for every generator state whose draws lie in `[0, 1)`, the
delay computed by `add_human_jitter` is non-negative and never exceeds
900 seconds (the upper end of the slow branch): the quick branch draws
from `[0, 60]`, the typical branch is a non-negative exponential capped
at 600, and the slow branch draws from `[300, 900]`. -/
theorem C9_jitter_bounds (r : Rng)
    (h : ∀ i, 0 ≤ r.stream i ∧ r.stream i < 1) :
    0 ≤ (add_human_jitter r).1 ∧ (add_human_jitter r).1 ≤ 900 := by
  simp only [add_human_jitter, Rng.random, Rng.uniform, expovariate]
  split_ifs with h1 h2
  · obtain ⟨ha, hb⟩ := h (r.pos + 1)
    have ha2 : (0 : ℝ) ≤ (r.stream (r.pos + 1) : ℝ) := by exact_mod_cast ha
    have hb2 : (r.stream (r.pos + 1) : ℝ) < 1 := by exact_mod_cast hb
    constructor
    · push_cast
      nlinarith
    · push_cast
      nlinarith
  · obtain ⟨ha, hb⟩ := h (r.pos + 1 + 1)
    have hcast0 : (0 : ℝ) ≤ (r.stream (r.pos + 1 + 1) : ℝ) := by exact_mod_cast ha
    have hcast1 : (r.stream (r.pos + 1 + 1) : ℝ) < 1 := by exact_mod_cast hb
    have hlog : Real.log (1 - (r.stream (r.pos + 1 + 1) : ℝ)) ≤ 0 :=
      Real.log_nonpos (by linarith) (by linarith)
    have hexp : 0 ≤ -Real.log (1 - (r.stream (r.pos + 1 + 1) : ℝ)) / ((1 : ℝ) / 180) :=
      div_nonneg (by linarith) (by norm_num)
    constructor
    · exact le_min hexp (by norm_num)
    · exact le_trans (min_le_right _ _) (by norm_num)
  · obtain ⟨ha, hb⟩ := h (r.pos + 1 + 1)
    have ha2 : (0 : ℝ) ≤ (r.stream (r.pos + 1 + 1) : ℝ) := by exact_mod_cast ha
    have hb2 : (r.stream (r.pos + 1 + 1) : ℝ) < 1 := by exact_mod_cast hb
    constructor
    · push_cast
      nlinarith
    · push_cast
      nlinarith

/-- Claim C9 witness: the all-zero draw stream satisfies the `[0, 1)`
bound and its jitter delay lies in `[0, 900]`. -/
theorem C9_jitter_bounds_witness :
    (∀ i, 0 ≤ rng0.stream i ∧ rng0.stream i < 1) ∧
    (0 ≤ (add_human_jitter rng0).1 ∧ (add_human_jitter rng0).1 ≤ 900) := by
  have hstream : ∀ i, 0 ≤ rng0.stream i ∧ rng0.stream i < 1 := by
    intro i
    constructor
    · show (0 : ℚ) ≤ 0
      with_unfolding_all decide
    · show (0 : ℚ) < 1
      with_unfolding_all decide
  exact ⟨hstream, C9_jitter_bounds rng0 hstream⟩

/-- Claim C10: holding the base probability, the other multiplier and
the micro-break outcome fixed, `final_fire_probability` — the product
`base * day_mult * lunch_mult`, optionally times the 0.3 micro-break
factor — is non-increasing as `day_mult` decreases and non-increasing as
`lunch_mult` decreases, for non-negative base and multipliers. -/
theorem C10_probability_monotone (base d l d1 d2 l1 l2 : ℚ) (m : Bool)
    (hb : 0 ≤ base) :
    (0 ≤ l → 0 ≤ d1 → d1 ≤ d2 →
      final_fire_probability base d1 l m ≤ final_fire_probability base d2 l m) ∧
    (0 ≤ d → 0 ≤ l1 → l1 ≤ l2 →
      final_fire_probability base d l1 m ≤ final_fire_probability base d l2 m) := by
  constructor
  · intro hl hd1 hdle
    have key : base * d1 * l ≤ base * d2 * l := by
      nlinarith [mul_nonneg (mul_nonneg hb (sub_nonneg.mpr hdle)) hl]
    cases m
    · simpa [final_fire_probability] using key
    · have hm := mul_le_mul_of_nonneg_right key (by norm_num : (0 : ℚ) ≤ 0.3)
      simpa [final_fire_probability] using hm
  · intro hd hl1 hlle
    have key : base * d * l1 ≤ base * d * l2 := by
      nlinarith [mul_nonneg (mul_nonneg hb hd) (sub_nonneg.mpr hlle)]
    cases m
    · simpa [final_fire_probability] using key
    · have hm := mul_le_mul_of_nonneg_right key (by norm_num : (0 : ℚ) ≤ 0.3)
      simpa [final_fire_probability] using hm

/-- Claim C10 witness: with base 0.9 and the micro-break active, raising
the day multiplier from 0.5 to 1 and the lunch multiplier from 0.7 to 1
does not decrease the final probability. -/
theorem C10_probability_monotone_witness :
    (0 : ℚ) ≤ 0.9 ∧
    (final_fire_probability 0.9 0.5 1 true ≤ final_fire_probability 0.9 1 1 true ∧
      final_fire_probability 0.9 1 0.7 true ≤ final_fire_probability 0.9 1 1 true) :=
  ⟨by with_unfolding_all decide,
    (C10_probability_monotone 0.9 1 1 0.5 1 0.7 1 true
        (by with_unfolding_all decide)).1
      (by with_unfolding_all decide) (by with_unfolding_all decide)
      (by with_unfolding_all decide),
    (C10_probability_monotone 0.9 1 1 0.5 1 0.7 1 true
        (by with_unfolding_all decide)).2
      (by with_unfolding_all decide) (by with_unfolding_all decide)
      (by with_unfolding_all decide)⟩
